import Mathlib

/-!
Shallow embedding of `src/backend/core/email_backends.py`
(`ResendEmailBackend`): a Django email backend that sends mail through the
Resend REST API.  The embedding models

* the configuration held on the backend instance (`ResendEmailBackend`),
* construction-time validation (`init_backend`, mirroring `__init__`),
* message normalization into the provider payload (`build_payload`,
  mirroring the payload-building half of `_send_message`),
* response/error classification (`dispatch_result`, mirroring the
  request/`raise_for_status`/`json()` half of `_send_message`), and
* the batch loop (`send_messages`).

Python truthiness (`not x`, `if x:`) on strings, lists and `None` is made
explicit via `optTruthy` and `PyStrList.truthy`.  The environment behaviour
of one HTTP round trip is an `HttpResult` value supplied per message.
-/

namespace Resend

/-- A JSON-shaped value as stored into the outgoing payload dict: the
backend only ever stores plain strings and lists of strings. -/
inductive JVal where
  | jstr (s : String)
  | jlist (l : List String)
  deriving DecidableEq

/-- A parsed JSON document, modelling the result of `response.json()`. -/
inductive JsonV where
  | jnull
  | jbool (b : Bool)
  | jnum (n : Int)
  | jstr (s : String)
  | jarr (elems : List JsonV)
  | jobj (fields : List (String × JsonV))

/-- A recipient field exactly as Django hands it to the backend: either a
bare address string or a list of address strings (the code guards each
access with `isinstance(..., list)`). -/
inductive PyStrList where
  | pstr (s : String)
  | plist (l : List String)
  deriving DecidableEq

/-- Python truthiness of a string-or-list value: the empty string and the
empty list are falsy. -/
def PyStrList.truthy : PyStrList → Bool
  | .pstr s => s ≠ ""
  | .plist l => l ≠ []

/-- `v if isinstance(v, list) else [v]` — the wrapping used for
`message.to` and (under a truthiness guard) `message.reply_to`. -/
def PyStrList.asList : PyStrList → List String
  | .pstr s => [s]
  | .plist l => l

/-- `v if isinstance(v, list) else (v or [])` — the coercion used for
`message.cc` and `message.bcc`: a truthy scalar is kept as a bare string,
a falsy scalar becomes the empty list. -/
def PyStrList.orEmpty : PyStrList → PyStrList
  | .pstr s => if s = "" then .plist [] else .pstr s
  | .plist l => .plist l

/-- Embeds a string-or-list value into the payload value type. -/
def PyStrList.toJVal : PyStrList → JVal
  | .pstr s => .jstr s
  | .plist l => .jlist l

/-- Python truthiness of an optional string: `None` and `""` are falsy. -/
def optTruthy : Option String → Bool
  | none => false
  | some s => s ≠ ""

/-- One Django email message as consumed by the backend.
`alternatives = none` models a plain `EmailMessage`;
`alternatives = some alts` models an `EmailMultiAlternatives` carrying the
(content, mimeType) list `alts` (possibly empty). -/
structure EmailMsg where
  from_email : Option String
  «to» : PyStrList
  cc : PyStrList
  bcc : PyStrList
  reply_to : PyStrList
  subject : String
  body : String
  content_subtype : String
  alternatives : Option (List (String × String))

/-- The adapter state set up by `__init__`: credentials and mode. -/
structure ResendEmailBackend where
  api_key : Option String
  api_url : String
  from_email : Option String
  fail_silently : Bool

/-- Failure detail classified by the `except` clause of `_send_message`:
`jsonDetail` when `e.response.json()` parses, `statusText` when a response
exists but its body is not JSON, `transport` when no response is attached
(connection error, timeout), and `decodeError` for a 2xx response whose
body fails `response.json()` (requests raises a `JSONDecodeError`, a
`RequestException` with no `response` attribute set). -/
inductive ErrDetail where
  | jsonDetail (j : JsonV)
  | statusText (status : Nat) (text : String)
  | transport (desc : String)
  | decodeError (text : String)

/-- An exception escaping the backend: `valueError` models the
configuration `ValueError`s, `sendError` the `Exception` re-raised from a
failed dispatch. -/
inductive PyErr where
  | valueError (msg : String)
  | sendError (d : ErrDetail)

/-- `__init__` (lines 32-54): stores settings on the instance and raises
`ValueError` for a missing `RESEND_API_KEY` or `EMAIL_FROM` unless
`fail_silently` is set (in which case it only logs a warning). -/
def init_backend (api_key : Option String) (api_url : Option String)
    (from_email : Option String) (fail_silently : Bool) :
    Except PyErr ResendEmailBackend :=
  let b : ResendEmailBackend :=
    { api_key := api_key
      api_url := api_url.getD "https://api.resend.com/emails"
      from_email := from_email
      fail_silently := fail_silently }
  if !optTruthy api_key && !fail_silently then
    .error (.valueError "RESEND_API_KEY setting is required for ResendEmailBackend")
  else if !optTruthy from_email && !fail_silently then
    .error (.valueError "EMAIL_FROM setting is required for ResendEmailBackend")
  else .ok b

/-- The scan over `message.alternatives`: for each `(content, mimeType)`
entry, a `text/html` entry overwrites `html_content`, a `text/plain`
entry overwrites `text_content`; later entries win. -/
def scanAlts (alts : List (String × String)) : Option String × Option String :=
  alts.foldl
    (fun p ct =>
      if ct.2 = "text/html" then (some ct.1, p.2)
      else if ct.2 = "text/plain" then (p.1, some ct.1)
      else p)
    (none, none)

/-- `if content: payload[k] = content` — emits one payload entry under a
Python truthiness guard on an optional string. -/
def truthyStrField (k : String) (o : Option String) : List (String × JVal) :=
  match o with
  | some s => if s = "" then [] else [(k, JVal.jstr s)]
  | none => []

/-- The body-negotiation block of `_send_message` (lines 123-148):
multipart messages scan alternatives, fall back to `message.body` when the
plain entry is falsy, and emit `html`/`text` under truthiness guards;
simple messages emit exactly one of `html`/`text` from `content_subtype`,
with no truthiness guard. -/
def bodyFields (body subtype : String) :
    Option (List (String × String)) → List (String × JVal)
  | some alts =>
    let hc := (scanAlts alts).1
    let tc0 := (scanAlts alts).2
    let tc := if optTruthy tc0 then tc0 else some body
    truthyStrField "html" hc ++ truthyStrField "text" tc
  | none =>
    if subtype = "html" then [("html", JVal.jstr body)]
    else [("text", JVal.jstr body)]

/-- `if xs: payload[k] = xs` for a string-or-list value. -/
def optField (k : String) (v : PyStrList) : List (String × JVal) :=
  if v.truthy then [(k, v.toJVal)] else []

/-- `if message.reply_to: payload["reply_to"] = ...` — the reply-to
entry: emitted only when truthy, scalar wrapped into a list. -/
def replyToField (v : PyStrList) : List (String × JVal) :=
  if v.truthy then [("reply_to", JVal.jlist v.asList)] else []

/-- The payload construction of `_send_message` (lines 89-148), as an
ordered key/value list mirroring the Python dict:
`from`/`to`/`subject` always, `cc`/`bcc`/`reply_to` under truthiness
guards, then the body fields.  `self_from` is `self.from_email` as
established truthy by the `send_messages` guard. -/
def build_payload (self_from : String) (m : EmailMsg) : List (String × JVal) :=
  let to_emails := m.«to».asList
  let cc_emails := m.cc.orEmpty
  let bcc_emails := m.bcc.orEmpty
  let from_email :=
    match m.from_email with
    | some s => if s = "" then self_from else s
    | none => self_from
  [("from", JVal.jstr from_email), ("to", JVal.jlist to_emails),
   ("subject", JVal.jstr m.subject)] ++
  optField "cc" cc_emails ++
  optField "bcc" bcc_emails ++
  replyToField m.reply_to ++
  bodyFields m.body m.content_subtype m.alternatives

/-- Dictionary lookup in the payload record (keys are distinct). -/
def getField (k : String) : List (String × JVal) → Option JVal
  | [] => none
  | kv :: rest => if kv.1 = k then some kv.2 else getField k rest

/-- What the environment did with one `requests.post` call: either a
response (status, raw body text, and the body's JSON parse when it is
parseable JSON) or a transport-level failure with no response (connection
error, timeout, DNS failure). -/
inductive HttpResult where
  | response (status : Nat) (text : String) (parsed : Option JsonV)
  | transportFailure (desc : String)

/-- The dispatch half of `_send_message` (lines 164-189):
`raise_for_status` raises for 4xx/5xx, whose handler classifies the detail
from `e.response` (parsed JSON body, else status code and raw text);
a transport failure carries no response; on a non-error status
`response.json()` is called, raising a `JSONDecodeError` (no response
attached) when the body is not JSON. -/
def dispatch_result : HttpResult → Except ErrDetail Unit
  | .response status text parsed =>
    if 400 ≤ status ∧ status < 600 then
      match parsed with
      | some j => .error (.jsonDetail j)
      | none => .error (.statusText status text)
    else
      match parsed with
      | some _ => .ok ()
      | none => .error (.decodeError text)
  | .transportFailure d => .error (.transport d)

/-- `not self.api_key or not self.from_email` (line 63). -/
def degraded (b : ResendEmailBackend) : Bool :=
  !(optTruthy b.api_key && optTruthy b.from_email)

/-- The per-message loop of `send_messages` (lines 70-84), tracking the
running `num_sent` and the number of HTTP requests issued so far.  Each
attempted message issues exactly one request; a success increments the
count; a failure either aborts (strict mode, re-raise) or is absorbed
(silent mode). -/
def send_loop (fs : Bool) :
    List (EmailMsg × HttpResult) → Nat → Nat → Except PyErr Nat × Nat
  | [], num_sent, reqs => (.ok num_sent, reqs)
  | (_, r) :: rest, num_sent, reqs =>
    match dispatch_result r with
    | .ok _ => send_loop fs rest (num_sent + 1) (reqs + 1)
    | .error d =>
      if fs then send_loop fs rest num_sent (reqs + 1)
      else (.error (.sendError d), reqs + 1)

/-- `send_messages` (lines 56-84): empty batch short-circuits to 0 before
any configuration access; a degraded configuration raises `ValueError` in
strict mode and returns 0 in silent mode, issuing no request; otherwise
the per-message loop runs.  The second component counts HTTP requests
issued. -/
def send_messages (b : ResendEmailBackend)
    (msgs : List (EmailMsg × HttpResult)) : Except PyErr Nat × Nat :=
  if msgs.isEmpty then (.ok 0, 0)
  else if degraded b then
    if !b.fail_silently then
      (.error (.valueError "RESEND_API_KEY and EMAIL_FROM must be set to send emails"), 0)
    else (.ok 0, 0)
  else send_loop b.fail_silently msgs 0 0

/-! ### Lookup lemmas for the payload dict -/

theorem getField_append (k : String) (l1 l2 : List (String × JVal)) :
    getField k (l1 ++ l2) = (getField k l1).or (getField k l2) := by
  induction l1 with
  | nil => simp [getField]
  | cons kv rest ih =>
    by_cases h : kv.1 = k <;> simp [getField, h, ih]

theorem getField_optField_ne (k k' : String) (v : PyStrList) (h : k' ≠ k) :
    getField k (optField k' v) = none := by
  unfold optField
  split <;> simp [getField, h]

theorem getField_optField_self (k : String) (v : PyStrList) :
    getField k (optField k v) = if v.truthy then some v.toJVal else none := by
  unfold optField
  split <;> simp [getField]

theorem getField_truthyStrField_ne (k k' : String) (o : Option String) (h : k' ≠ k) :
    getField k (truthyStrField k' o) = none := by
  cases o with
  | none => simp [truthyStrField, getField]
  | some s => by_cases hs : s = "" <;> simp [truthyStrField, hs, getField, h]

theorem getField_truthyStrField_self (k : String) (o : Option String) :
    getField k (truthyStrField k o) =
      (match o with
       | some s => if s = "" then none else some (JVal.jstr s)
       | none => none) := by
  cases o with
  | none => simp [truthyStrField, getField]
  | some s => by_cases hs : s = "" <;> simp [truthyStrField, hs, getField]

theorem getField_replyToField_ne (k : String) (v : PyStrList) (h : k ≠ "reply_to") :
    getField k (replyToField v) = none := by
  unfold replyToField
  split <;> simp [getField, Ne.symm h]

theorem getField_bodyFields_ne (k : String) (hh : k ≠ "html") (ht : k ≠ "text")
    (body subtype : String) (alts : Option (List (String × String))) :
    getField k (bodyFields body subtype alts) = none := by
  cases alts with
  | none =>
    by_cases hs : subtype = "html" <;>
      simp [bodyFields, hs, getField, Ne.symm hh, Ne.symm ht]
  | some l =>
    simp [bodyFields, getField_append, getField_truthyStrField_ne _ _ _ (Ne.symm hh),
      getField_truthyStrField_ne _ _ _ (Ne.symm ht)]

/-! ### Per-key characterization of the built payload -/

theorem payload_to (d : String) (m : EmailMsg) :
    getField "to" (build_payload d m) = some (JVal.jlist m.«to».asList) := by
  unfold build_payload
  simp [getField_append, getField]

theorem payload_cc (d : String) (m : EmailMsg) :
    getField "cc" (build_payload d m) =
      (if m.cc.orEmpty.truthy then some m.cc.orEmpty.toJVal else none) := by
  unfold build_payload
  simp [getField_append, getField, getField_optField_self, getField_optField_ne,
    getField_replyToField_ne, getField_bodyFields_ne]

theorem payload_bcc (d : String) (m : EmailMsg) :
    getField "bcc" (build_payload d m) =
      (if m.bcc.orEmpty.truthy then some m.bcc.orEmpty.toJVal else none) := by
  unfold build_payload
  simp [getField_append, getField, getField_optField_self, getField_optField_ne,
    getField_replyToField_ne, getField_bodyFields_ne]

theorem payload_reply_to (d : String) (m : EmailMsg) :
    getField "reply_to" (build_payload d m) =
      (if m.reply_to.truthy then some (JVal.jlist m.reply_to.asList) else none) := by
  unfold build_payload
  simp only [getField_append, getField, getField_optField_ne, getField_bodyFields_ne]
  cases hr : m.reply_to.truthy <;>
    simp [replyToField, hr, getField, getField_optField_ne, getField_append,
      getField_bodyFields_ne]

theorem payload_html (d : String) (m : EmailMsg) :
    getField "html" (build_payload d m) =
      getField "html" (bodyFields m.body m.content_subtype m.alternatives) := by
  unfold build_payload
  simp [getField_append, getField, getField_optField_ne, getField_replyToField_ne]

theorem payload_text (d : String) (m : EmailMsg) :
    getField "text" (build_payload d m) =
      getField "text" (bodyFields m.body m.content_subtype m.alternatives) := by
  unfold build_payload
  simp [getField_append, getField, getField_optField_ne, getField_replyToField_ne]

/-! ### Content negotiation for multipart messages (claim C1) -/

/-- `if content: payload[k] = content` as a value: the entry the backend
emits for an optional string under a Python truthiness guard. -/
def emitTruthy : Option String → Option JVal
  | some s => if s = "" then none else some (JVal.jstr s)
  | none => none

/-- The plain-text content the code settles on for a multipart message:
the scanned `text/plain` alternative when truthy, else `message.body`. -/
def effectiveText (body : String) (alts : List (String × String)) : String :=
  match (scanAlts alts).2 with
  | some s => if s = "" then body else s
  | none => body

theorem bodyFields_multipart_html (body subtype : String)
    (alts : List (String × String)) :
    getField "html" (bodyFields body subtype (some alts)) =
      emitTruthy (scanAlts alts).1 := by
  simp [bodyFields, getField_append, getField_truthyStrField_self,
    getField_truthyStrField_ne "html" "text" _ (by decide)]
  cases h : (scanAlts alts).1 with
  | none => simp [emitTruthy]
  | some s => by_cases hs : s = "" <;> simp [emitTruthy, hs]

theorem bodyFields_multipart_text (body subtype : String)
    (alts : List (String × String)) :
    getField "text" (bodyFields body subtype (some alts)) =
      emitTruthy (some (effectiveText body alts)) := by
  simp [bodyFields, getField_append, getField_truthyStrField_self,
    getField_truthyStrField_ne "text" "html" _ (by decide)]
  cases h : (scanAlts alts).2 with
  | none => simp [optTruthy, effectiveText, h, emitTruthy]
  | some s =>
    by_cases hs : s = "" <;>
      simp [optTruthy, effectiveText, h, hs, emitTruthy]

/-- Claim C1 as stated: for a multipart message the payload `html` field
is exactly the scanned html alternative and the `text` field is always
present, holding the scanned plain alternative or, failing that, the
primary body. -/
def C1Statement : Prop :=
  ∀ (d : String) (m : EmailMsg) (alts : List (String × String)),
    m.alternatives = some alts →
    getField "html" (build_payload d m) = Option.map JVal.jstr (scanAlts alts).1 ∧
    getField "text" (build_payload d m) =
      some (JVal.jstr (((scanAlts alts).2).getD m.body))

/-- A multipart message with only an html alternative and an empty
primary body: the code omits the `text` field instead of emitting the
(empty) primary body as `text`. -/
def c1msg : EmailMsg :=
  { from_email := none, «to» := .plist ["a@b"], cc := .plist [], bcc := .plist [],
    reply_to := .plist [], subject := "s", body := "", content_subtype := "plain",
    alternatives := some [("<b>hi</b>", "text/html")] }

/-- Claim C1 is false as stated: on `c1msg` (html alternative only, empty
primary body) the claim requires a `text` field holding the empty primary
body, but the backend emits no `text` field at all, because the payload
entry is guarded by Python truthiness of the fallback content. -/
theorem resendC1_counterexample : ¬ C1Statement := by
  intro h
  have h2 := (h "f@x" c1msg [("<b>hi</b>", "text/html")] rfl).2
  have h3 : getField "text" (build_payload "f@x" c1msg) = none := rfl
  rw [h3] at h2
  exact Option.noConfusion h2

/-- Claim C1, amended: for a multipart message the scanned html and plain
alternatives (later entries winning) drive the payload body fields, with
the primary body as plain fallback whenever the plain alternative is
absent or empty; each of `html`/`text` is emitted only when the chosen
content is non-empty, and is omitted otherwise. -/
theorem resendC1_multipart_negotiation (d : String) (m : EmailMsg)
    (alts : List (String × String)) (h : m.alternatives = some alts) :
    getField "html" (build_payload d m) = emitTruthy (scanAlts alts).1 ∧
    getField "text" (build_payload d m) =
      emitTruthy (some (effectiveText m.body alts)) := by
  rw [payload_html, payload_text, h]
  exact ⟨bodyFields_multipart_html _ _ _, bodyFields_multipart_text _ _ _⟩

/-- The spec's own example message: html alternative plus primary body
`"hi"`. -/
def c1wmsg : EmailMsg :=
  { from_email := none, «to» := .plist ["a@b"], cc := .plist [], bcc := .plist [],
    reply_to := .plist [], subject := "s", body := "hi", content_subtype := "plain",
    alternatives := some [("<b>hi</b>", "text/html")] }

theorem resendC1_witness :
    c1wmsg.alternatives = some [("<b>hi</b>", "text/html")] ∧
    getField "html" (build_payload "f@x" c1wmsg) =
      emitTruthy (scanAlts [("<b>hi</b>", "text/html")]).1 ∧
    getField "text" (build_payload "f@x" c1wmsg) =
      emitTruthy (some (effectiveText c1wmsg.body [("<b>hi</b>", "text/html")])) :=
  ⟨rfl, (resendC1_multipart_negotiation "f@x" c1wmsg _ rfl).1,
    (resendC1_multipart_negotiation "f@x" c1wmsg _ rfl).2⟩

/-! ### Recipient flattening (claim C2) -/

/-- Claim C2 wording for one field: the normalized ordered list, omitted
entirely when empty. -/
def listOrOmit (l : List String) : Option JVal :=
  if l = [] then none else some (JVal.jlist l)

/-- Claim C2 as stated: every recipient field, scalar or list, normalizes
to an ordered list, and an empty normalized list is omitted from the
payload entirely. -/
def C2Statement : Prop :=
  ∀ (d : String) (m : EmailMsg),
    getField "to" (build_payload d m) = listOrOmit m.«to».asList ∧
    getField "cc" (build_payload d m) = listOrOmit m.cc.asList ∧
    getField "bcc" (build_payload d m) = listOrOmit m.bcc.asList ∧
    getField "reply_to" (build_payload d m) = listOrOmit m.reply_to.asList

/-- A message whose `to` field is the empty list: the payload still
carries `"to": []`, since `to` is written into the dict unconditionally. -/
def c2msg : EmailMsg :=
  { from_email := none, «to» := .plist [], cc := .plist [], bcc := .plist [],
    reply_to := .plist [], subject := "s", body := "x", content_subtype := "plain",
    alternatives := none }

/-- Claim C2 is false as stated: on `c2msg` (empty `to` list) the claim
requires the `to` field to be omitted from the payload, but the backend
always emits `to`, here as the empty list.  (A second divergence, not
needed for the refutation: a `cc`/`bcc` given as a single truthy address
is put into the payload as a bare string, not wrapped into a list.) -/
theorem resendC2_counterexample : ¬ C2Statement := by
  intro h
  have h2 := (h "f@x" c2msg).1
  have h3 : getField "to" (build_payload "f@x" c2msg) = some (JVal.jlist []) := rfl
  have h4 : listOrOmit c2msg.«to».asList = none := rfl
  rw [h3, h4] at h2
  exact Option.noConfusion h2

/-- Claim C2, amended: `to` is normalized to a list (a bare address is
wrapped) and is always present in the payload, even when empty; a `cc` or
`bcc` list is kept as given and a truthy bare `cc`/`bcc` address is passed
through unwrapped, while a falsy one yields the empty list; `cc`, `bcc`
and `reply_to` are emitted only when truthy (non-empty) and omitted
otherwise; `reply_to` is normalized to a list.  Order is preserved and no
deduplication is performed (the lists are passed through verbatim). -/
theorem resendC2_recipient_fields (d : String) (m : EmailMsg) :
    getField "to" (build_payload d m) = some (JVal.jlist m.«to».asList) ∧
    getField "cc" (build_payload d m) =
      (if m.cc.orEmpty.truthy then some m.cc.orEmpty.toJVal else none) ∧
    getField "bcc" (build_payload d m) =
      (if m.bcc.orEmpty.truthy then some m.bcc.orEmpty.toJVal else none) ∧
    getField "reply_to" (build_payload d m) =
      (if m.reply_to.truthy then some (JVal.jlist m.reply_to.asList) else none) :=
  ⟨payload_to d m, payload_cc d m, payload_bcc d m, payload_reply_to d m⟩

/-! ### Simple messages (claims C7, C10) -/

/-- Shared helper: the body fields a simple message (no alternatives)
contributes to the payload, split by `content_subtype`. -/
theorem simple_body_fields (d : String) (m : EmailMsg)
    (h : m.alternatives = none) :
    (m.content_subtype = "html" →
      getField "html" (build_payload d m) = some (JVal.jstr m.body) ∧
      getField "text" (build_payload d m) = none) ∧
    (m.content_subtype ≠ "html" →
      getField "text" (build_payload d m) = some (JVal.jstr m.body) ∧
      getField "html" (build_payload d m) = none) := by
  constructor <;> intro hs <;> constructor <;>
    simp [payload_html, payload_text, h, bodyFields, hs, getField,
      getField_append, getField_optField_ne, getField_replyToField_ne]

/-- Claim C7: for a simple message (no alternatives) the primary body goes
to `html` when `content_subtype` is `"html"` (and no `text` field is set),
else to `text` (and no `html` field is set). -/
theorem resendC7_simple_body (d : String) (m : EmailMsg)
    (h : m.alternatives = none) :
    (m.content_subtype = "html" →
      getField "html" (build_payload d m) = some (JVal.jstr m.body) ∧
      getField "text" (build_payload d m) = none) ∧
    (m.content_subtype ≠ "html" →
      getField "text" (build_payload d m) = some (JVal.jstr m.body) ∧
      getField "html" (build_payload d m) = none) :=
  simple_body_fields d m h

/-- A simple html message, the spec's own example. -/
def c7msg : EmailMsg :=
  { from_email := none, «to» := .plist ["a@b"], cc := .plist [], bcc := .plist [],
    reply_to := .plist [], subject := "s", body := "<p>x</p>",
    content_subtype := "html", alternatives := none }

theorem resendC7_witness :
    c7msg.alternatives = none ∧ c7msg.content_subtype = "html" ∧
    getField "html" (build_payload "f@x" c7msg) = some (JVal.jstr "<p>x</p>") ∧
    getField "text" (build_payload "f@x" c7msg) = none :=
  ⟨rfl, rfl, ((resendC7_simple_body "f@x" c7msg rfl).1 rfl).1,
    ((resendC7_simple_body "f@x" c7msg rfl).1 rfl).2⟩

/-- Claim C10: a simple message always yields exactly one of the
`html`/`text` fields, holding the primary body verbatim — also when the
body is the empty string (the simple branch emits it with no truthiness
guard). -/
theorem resendC10_simple_exactly_one (d : String) (m : EmailMsg)
    (h : m.alternatives = none) :
    (getField "html" (build_payload d m) = some (JVal.jstr m.body) ∧
     getField "text" (build_payload d m) = none) ∨
    (getField "text" (build_payload d m) = some (JVal.jstr m.body) ∧
     getField "html" (build_payload d m) = none) := by
  by_cases hs : m.content_subtype = "html"
  · exact Or.inl ((simple_body_fields d m h).1 hs)
  · exact Or.inr ((simple_body_fields d m h).2 hs)

/-- A simple message with an empty body and the default plain subtype. -/
def c10msg : EmailMsg :=
  { from_email := none, «to» := .plist ["a@b"], cc := .plist [], bcc := .plist [],
    reply_to := .plist [], subject := "s", body := "",
    content_subtype := "plain", alternatives := none }

theorem resendC10_witness :
    c10msg.alternatives = none ∧
    ((getField "html" (build_payload "f@x" c10msg) = some (JVal.jstr "") ∧
      getField "text" (build_payload "f@x" c10msg) = none) ∨
     (getField "text" (build_payload "f@x" c10msg) = some (JVal.jstr "") ∧
      getField "html" (build_payload "f@x" c10msg) = none)) :=
  ⟨rfl, resendC10_simple_exactly_one "f@x" c10msg rfl⟩

/-! ### Batch coordination (claims C3, C4, C5, C8, C9) -/

theorem send_loop_silent (msgs : List (EmailMsg × HttpResult)) (n reqs : Nat) :
    send_loop true msgs n reqs =
      (.ok (n + msgs.countP fun p => (dispatch_result p.2).isOk),
        reqs + msgs.length) := by
  induction msgs generalizing n reqs with
  | nil => simp [send_loop]
  | cons q rest ih =>
    obtain ⟨m, r⟩ := q
    cases hd : dispatch_result r with
    | ok u =>
      simp only [send_loop, hd]
      rw [ih]
      simp [Prod.ext_iff, List.countP_cons, hd, Except.isOk, Except.toBool]
      omega
    | error e =>
      simp only [send_loop, hd, if_pos rfl]
      rw [ih]
      simp [Prod.ext_iff, List.countP_cons, hd, Except.isOk, Except.toBool]
      omega

theorem send_loop_strict_abort (pre post : List (EmailMsg × HttpResult))
    (mr : EmailMsg × HttpResult) (d : ErrDetail)
    (hpre : ∀ p ∈ pre, (dispatch_result p.2).isOk = true)
    (hfail : dispatch_result mr.2 = .error d) (n reqs : Nat) :
    send_loop false (pre ++ mr :: post) n reqs =
      (.error (.sendError d), reqs + pre.length + 1) := by
  induction pre generalizing n reqs with
  | nil =>
    obtain ⟨m, r⟩ := mr
    simp only [List.nil_append, send_loop, hfail]
    simp
  | cons q rest ih =>
    obtain ⟨qm, qr⟩ := q
    have hq := hpre (qm, qr) (by simp)
    cases hd : dispatch_result qr with
    | ok u =>
      simp only [List.cons_append, send_loop, hd]
      simp only [List.append_eq]
      rw [ih (fun p hp => hpre p (by simp [hp]))]
      simp [Prod.ext_iff]
      omega
    | error e =>
      rw [hd] at hq
      simp [Except.isOk, Except.toBool] at hq

/-- Claim C3: in strict mode, with a usable configuration, a batch whose
first dispatch failure occurs after `pre` successful messages propagates
that failure immediately: the result is the raised error (which carries no
count of the prior successes) and exactly `pre.length + 1` HTTP requests
were issued, so no message after the failing one is ever dispatched. -/
theorem resendC3_strict_abort (b : ResendEmailBackend)
    (pre post : List (EmailMsg × HttpResult)) (mr : EmailMsg × HttpResult)
    (d : ErrDetail)
    (hfs : b.fail_silently = false) (hcfg : degraded b = false)
    (hpre : ∀ p ∈ pre, (dispatch_result p.2).isOk = true)
    (hfail : dispatch_result mr.2 = .error d) :
    send_messages b (pre ++ mr :: post) =
      (.error (.sendError d), pre.length + 1) := by
  have hne : (pre ++ mr :: post).isEmpty = false := by
    cases pre <;> rfl
  rw [send_messages]
  rw [hne, hcfg, hfs]
  simp only [Bool.false_eq_true, if_false]
  rw [send_loop_strict_abort pre post mr d hpre hfail]
  simp

/-- Concrete strict-mode batch of three messages whose second dispatch
fails with a 500. -/
def okW : HttpResult := .response 200 "{}" (some (.jobj []))

def errW : HttpResult := .response 500 "boom" none

def mW : EmailMsg :=
  { from_email := none, «to» := .plist ["a@b"], cc := .plist [], bcc := .plist [],
    reply_to := .plist [], subject := "s", body := "x", content_subtype := "plain",
    alternatives := none }

def bStrict : ResendEmailBackend :=
  { api_key := some "k", api_url := "u", from_email := some "f@x",
    fail_silently := false }

def bSilent : ResendEmailBackend :=
  { api_key := some "k", api_url := "u", from_email := some "f@x",
    fail_silently := true }

theorem resendC3_witness :
    bStrict.fail_silently = false ∧ degraded bStrict = false ∧
    (∀ p ∈ [(mW, okW)], (dispatch_result p.2).isOk = true) ∧
    dispatch_result errW = .error (.statusText 500 "boom") ∧
    send_messages bStrict [(mW, okW), (mW, errW), (mW, okW)] =
      (.error (.sendError (.statusText 500 "boom")), 2) :=
  ⟨rfl, rfl, fun p hp => by rw [List.mem_singleton.mp hp]; rfl, rfl,
    resendC3_strict_abort bStrict [(mW, okW)] [(mW, okW)] (mW, errW) _ rfl rfl
      (fun p hp => by rw [List.mem_singleton.mp hp]; rfl) rfl⟩

/-- Claim C4: in silent mode, with a usable configuration, the batch
returns exactly the number of messages whose dispatch succeeded, and every
message is attempted (one HTTP request each). -/
theorem resendC4_silent_count (b : ResendEmailBackend)
    (msgs : List (EmailMsg × HttpResult))
    (hfs : b.fail_silently = true) (hcfg : degraded b = false) :
    send_messages b msgs =
      (.ok (msgs.countP fun p => (dispatch_result p.2).isOk), msgs.length) := by
  cases msgs with
  | nil => simp [send_messages]
  | cons q rest =>
    rw [send_messages]
    have hne : ((q :: rest).isEmpty) = false := rfl
    rw [hne, hcfg, hfs]
    simp only [Bool.false_eq_true, if_false]
    rw [send_loop_silent]
    simp

theorem resendC4_witness :
    bSilent.fail_silently = true ∧ degraded bSilent = false ∧
    send_messages bSilent [(mW, okW), (mW, errW), (mW, okW)] = (.ok 2, 3) :=
  ⟨rfl, rfl, resendC4_silent_count bSilent [(mW, okW), (mW, errW), (mW, okW)] rfl rfl⟩

/-- Claim C5: a non-empty batch against a degraded configuration (missing
api key or sender) raises the configuration `ValueError` in strict mode
and returns 0 in silent mode; in both cases zero HTTP requests are
issued. -/
theorem resendC5_degraded_batch (b : ResendEmailBackend)
    (msgs : List (EmailMsg × HttpResult))
    (hne : msgs ≠ []) (hdeg : degraded b = true) :
    (b.fail_silently = false →
      send_messages b msgs =
        (.error (.valueError "RESEND_API_KEY and EMAIL_FROM must be set to send emails"), 0)) ∧
    (b.fail_silently = true → send_messages b msgs = (.ok 0, 0)) := by
  have h1 : msgs.isEmpty = false := by
    cases msgs with
    | nil => exact absurd rfl hne
    | cons q rest => rfl
  constructor <;> intro hfs <;> simp [send_messages, h1, hdeg, hfs]

def bDegraded : ResendEmailBackend :=
  { api_key := none, api_url := "u", from_email := some "f@x",
    fail_silently := true }

theorem resendC5_witness :
    ([(mW, okW)] : List (EmailMsg × HttpResult)) ≠ [] ∧
    degraded bDegraded = true ∧
    (bDegraded.fail_silently = true →
      send_messages bDegraded [(mW, okW)] = (.ok 0, 0)) :=
  ⟨by simp, rfl, (resendC5_degraded_batch bDegraded [(mW, okW)] (by simp) rfl).2⟩

/-- Claim C8: the empty batch returns 0 with no HTTP request, for every
configuration (valid or degraded, either mode) — the guard returns before
the configuration is even consulted. -/
theorem resendC8_empty_batch (b : ResendEmailBackend) :
    send_messages b [] = (.ok 0, 0) := by
  simp [send_messages]

/-- Claim C9: with `fail_silently` set, `send_messages` never raises: for
every configuration and batch it returns an integer count. -/
theorem resendC9_silent_never_raises (b : ResendEmailBackend)
    (msgs : List (EmailMsg × HttpResult)) (hfs : b.fail_silently = true) :
    ∃ n : Nat, (send_messages b msgs).1 = .ok n := by
  cases msgs with
  | nil => exact ⟨0, by simp [send_messages]⟩
  | cons q rest =>
    by_cases hd : degraded b = true
    · exact ⟨0, by simp [send_messages, hd, hfs]⟩
    · refine ⟨(q :: rest).countP fun p => (dispatch_result p.2).isOk, ?_⟩
      have hd' : degraded b = false := by
        cases h : degraded b
        · rfl
        · exact absurd h hd
      rw [send_messages]
      have hne : ((q :: rest).isEmpty) = false := rfl
      rw [hne, hd', hfs]
      simp only [Bool.false_eq_true, if_false]
      rw [send_loop_silent]
      simp

theorem resendC9_witness :
    bDegraded.fail_silently = true ∧
    (∃ n : Nat, (send_messages bDegraded [(mW, errW), (mW, okW)]).1 = .ok n) :=
  ⟨rfl, resendC9_silent_never_raises bDegraded [(mW, errW), (mW, okW)] rfl⟩

/-! ### Failure classification (claim C6) -/

/-- The claim's three-way classification, in the spec's words: the parsed
JSON structure when the response body is parseable JSON; else the status
code with the raw body text when a response exists; else (no response) the
transport error description. -/
def claim_failure_detail : HttpResult → ErrDetail
  | .response s t parsed =>
    (match parsed with
     | some j => .jsonDetail j
     | none => .statusText s t)
  | .transportFailure desc => .transport desc

/-- Claim C6: for every failed send attempt against a provider honouring
the inbound interface contract (a non-error response carries a JSON body,
spec section 6), the failure detail is classified exactly as the claim
states. -/
theorem resendC6_failure_classification (r : HttpResult) (d : ErrDetail)
    (hwf : ∀ s t, r = .response s t none → 400 ≤ s ∧ s < 600)
    (h : dispatch_result r = .error d) :
    d = claim_failure_detail r := by
  cases r with
  | transportFailure desc =>
    simp only [dispatch_result, Except.error.injEq] at h
    simp [claim_failure_detail, ← h]
  | response st t parsed =>
    cases parsed with
    | some j =>
      by_cases hr : 400 ≤ st ∧ st < 600
      · simp only [dispatch_result, if_pos hr, Except.error.injEq] at h
        simp [claim_failure_detail, ← h]
      · simp only [dispatch_result, if_neg hr] at h
        exact absurd h (by simp)
    | none =>
      have hrange := hwf st t rfl
      simp only [dispatch_result, if_pos hrange, Except.error.injEq] at h
      simp [claim_failure_detail, ← h]

theorem resendC6_witness :
    (∀ s t, HttpResult.response 500 "boom" none = .response s t none →
      400 ≤ s ∧ s < 600) ∧
    dispatch_result (.response 500 "boom" none) = .error (.statusText 500 "boom") ∧
    ErrDetail.statusText 500 "boom" =
      claim_failure_detail (.response 500 "boom" none) := by
  have hwf : ∀ s t, HttpResult.response 500 "boom" none = .response s t none →
      400 ≤ s ∧ s < 600 := by
    intro s t hh
    injection hh with h1 h2 h3
    subst h1
    omega
  exact ⟨hwf, rfl,
    resendC6_failure_classification (.response 500 "boom" none) _ hwf rfl⟩

end Resend
